import Mathlib

/-!
Shallow embedding of the pyfback position/trade accounting core
(src/strategy/position.py, src/engine/trade.py, src/strategy/signals.py).

Python floats are modelled by rationals (ℚ), wall-clock reads
(dt.datetime.now()) by an explicit `now : ℕ` argument, and Python's
raise-on-invalid-argument behaviour by an `Except` error channel.  Each
mutating method of a Python object is embedded as a function returning the
post-call state together with the error channel: when the source raises
before any field assignment, the returned state is the unchanged input
state, mirroring the observable state of the mutable object after the
exception propagates.
-/

deriving instance DecidableEq for Except

/-- Case analysis on an `Except` value, used to embed Python's exception
propagation: the first continuation handles a propagating exception, the
second the normal return. -/
def exceptCase {ε ρ β : Type} (c : Except ε ρ) (herr : ε → β) (hok : ρ → β) : β :=
  match c with
  | .error e => herr e
  | .ok r => hok r

namespace PyFback

/-- `PositionSide` enum from src/strategy/position.py. -/
inductive PositionSide where
  | long
  | short
  | flat
deriving DecidableEq

/-- The distinct ValueError raise sites of src/strategy/position.py. -/
inductive PosErr where
  | negQuantity          -- "持仓数量不能为负数" (Position.__post_init__)
  | nonposAvgPrice       -- "平均价格必须大于0" (Position.__post_init__)
  | nonposCurrentPrice   -- "当前价格必须大于0" (Position.__post_init__)
  | addNonposQuantity    -- "增加的数量必须大于0" (Position.add_position)
  | reduceNonposQuantity -- "减少的数量必须大于0" (Position.reduce_position)
  | insufficientPosition -- "减少数量不能超过当前持仓" (Position.reduce_position)
deriving DecidableEq

/-- The `Position` dataclass fields (src/strategy/position.py). -/
structure Position where
  symbol : String
  side : PositionSide
  quantity : ℚ
  avg_price : ℚ
  current_price : ℚ
  timestamp : ℕ
  unrealized_pnl : ℚ := 0
  realized_pnl : ℚ := 0
deriving DecidableEq

/-- `Position.__post_init__` validation, run on every construction of the
dataclass: quantity must be nonnegative, avg_price and current_price must
be positive. -/
def mkPosition (symbol : String) (side : PositionSide)
    (quantity avg_price current_price : ℚ) (timestamp : ℕ)
    (unrealized_pnl realized_pnl : ℚ) : Except PosErr Position :=
  if quantity < 0 then .error .negQuantity
  else if avg_price ≤ 0 then .error .nonposAvgPrice
  else if current_price ≤ 0 then .error .nonposCurrentPrice
  else .ok {
    symbol := symbol
    side := side
    quantity := quantity
    avg_price := avg_price
    current_price := current_price
    timestamp := timestamp
    unrealized_pnl := unrealized_pnl
    realized_pnl := realized_pnl }

/-- `Position.is_long`: long side with positive quantity. -/
def Position.is_long (p : Position) : Bool :=
  p.side == PositionSide.long && decide (0 < p.quantity)

/-- `Position.is_short`: short side with positive quantity. -/
def Position.is_short (p : Position) : Bool :=
  p.side == PositionSide.short && decide (0 < p.quantity)

/-- `Position.is_flat`: flat side or zero quantity. -/
def Position.is_flat (p : Position) : Bool :=
  p.side == PositionSide.flat || decide (p.quantity = 0)

/-- `Position.market_value`. -/
def Position.market_value (p : Position) : ℚ :=
  p.quantity * p.current_price

/-- `Position.cost_value`. -/
def Position.cost_value (p : Position) : ℚ :=
  p.quantity * p.avg_price

/-- `Position.calculate_unrealized_pnl`.  The Python parameter default is
`None`; `price = current_price or self.current_price` also falls back to the
stored price when the argument is (falsy) zero. -/
def Position.calculate_unrealized_pnl (p : Position) (current_price : Option ℚ) : ℚ :=
  let price :=
    match current_price with
    | none => p.current_price
    | some x => if x = 0 then p.current_price else x
  if p.is_flat then 0
  else
    let price_diff := price - p.avg_price
    if p.is_long then p.quantity * price_diff
    else p.quantity * (-price_diff)

/-- `Position.update_price`: set `current_price`, recompute `unrealized_pnl`
from the new price, refresh the timestamp.  Never raises. -/
def Position.update_price (p : Position) (new_price : ℚ) (now : ℕ) : Position :=
  let p1 := { p with current_price := new_price }
  { p1 with unrealized_pnl := p1.calculate_unrealized_pnl none, timestamp := now }

/-- `Position.add_position`: raises on a nonpositive quantity; from a flat
state sets quantity and avg_price, otherwise recomputes the weighted average
cost basis.  Note the source never assigns `side`. -/
def Position.add_position (p : Position) (quantity price : ℚ) (now : ℕ) :
    Position × Except PosErr Unit :=
  if quantity ≤ 0 then (p, .error .addNonposQuantity)
  else if p.is_flat then
    ({ p with quantity := quantity, avg_price := price, timestamp := now }, .ok ())
  else
    let total_cost := p.cost_value + quantity * price
    let new_quantity := p.quantity + quantity
    ({ p with quantity := new_quantity, avg_price := total_cost / new_quantity,
              timestamp := now }, .ok ())

/-- `Position.reduce_position`: raises on a nonpositive quantity or a
quantity exceeding the holding (both checks precede every assignment);
otherwise realizes PnL with the long/short sign convention, decrements the
quantity, and forces the side to FLAT when the quantity reaches zero.
Returns the realized PnL of this reduction. -/
def Position.reduce_position (p : Position) (quantity price : ℚ) (now : ℕ) :
    Position × Except PosErr ℚ :=
  if quantity ≤ 0 then (p, .error .reduceNonposQuantity)
  else if p.quantity < quantity then (p, .error .insufficientPosition)
  else
    let price_diff := price - p.avg_price
    let realized := if p.is_long then quantity * price_diff else quantity * (-price_diff)
    let new_quantity := p.quantity - quantity
    let new_side := if new_quantity = 0 then PositionSide.flat else p.side
    ({ p with realized_pnl := p.realized_pnl + realized, quantity := new_quantity,
              side := new_side, timestamp := now }, .ok realized)

/-- `Position.close_position`: a no-op returning 0 when flat, otherwise a
full reduce at the given price. -/
def Position.close_position (p : Position) (price : ℚ) (now : ℕ) :
    Position × Except PosErr ℚ :=
  if p.is_flat then (p, .ok 0)
  else p.reduce_position p.quantity price now

/-- `Position.reverse_position`: first closes the existing holding, then —
when `new_quantity > 0` — installs the new quantity and price and flips the
side, reading `self.side` AFTER the close has already run. -/
def Position.reverse_position (p : Position) (new_quantity price : ℚ) (now : ℕ) :
    Position × Except PosErr ℚ :=
  let c := p.close_position price now
  exceptCase c.2 (fun e => (c.1, Except.error e)) (fun realized =>
    if 0 < new_quantity then
      let new_side :=
        if c.1.side = PositionSide.long then PositionSide.short else PositionSide.long
      ({ c.1 with quantity := new_quantity, avg_price := price, side := new_side,
                  timestamp := now }, Except.ok realized)
    else (c.1, Except.ok realized))

/-- `Position.create_long_position` classmethod. -/
def Position.create_long_position (symbol : String) (quantity price : ℚ) (now : ℕ) :
    Except PosErr Position :=
  mkPosition symbol PositionSide.long quantity price price now 0 0

/-- `Position.create_short_position` classmethod. -/
def Position.create_short_position (symbol : String) (quantity price : ℚ) (now : ℕ) :
    Except PosErr Position :=
  mkPosition symbol PositionSide.short quantity price price now 0 0

/-- `Position.create_flat_position` classmethod: constructs with
`quantity=0, avg_price=0, current_price=0`, which `__post_init__` then
validates. -/
def Position.create_flat_position (symbol : String) (now : ℕ) :
    Except PosErr Position :=
  mkPosition symbol PositionSide.flat 0 0 0 now 0 0

/-- Replace (or append) the entry of a symbol in an association list,
modelling `self.positions[symbol] = ...` on the registry's dict. -/
def updateAssoc (l : List (String × Position)) (symbol : String) (p : Position) :
    List (String × Position) :=
  match l with
  | [] => [(symbol, p)]
  | (s, q) :: rest =>
      if s = symbol then (s, p) :: rest else (s, q) :: updateAssoc rest symbol p

/-- `PositionManager` (src/strategy/position.py): a symbol-keyed map of
positions, embedded as an association list. -/
structure PositionManager where
  positions : List (String × Position)
deriving DecidableEq

/-- `PositionManager.get_position`: returns the stored position, lazily
inserting `Position.create_flat_position(symbol)` for an unseen symbol; a
raise inside the factory propagates before the dict assignment. -/
def PositionManager.get_position (m : PositionManager) (symbol : String) (now : ℕ) :
    PositionManager × Except PosErr Position :=
  (m.positions.lookup symbol).elim
    (exceptCase (Position.create_flat_position symbol now)
      (fun e => (m, Except.error e))
      (fun p => ({ positions := updateAssoc m.positions symbol p }, Except.ok p)))
    (fun p => (m, Except.ok p))

/-- `PositionManager.update_position`: the transition dispatch of the
registry.  Mutations on the looked-up position are in place in the source,
so a raise mid-branch leaves the partially mutated position in the map; the
final `update_price(price)` runs only when no branch raised. -/
def PositionManager.update_position (m : PositionManager) (symbol : String)
    (quantity : ℚ) (side : PositionSide) (price : ℚ) (now : ℕ) :
    PositionManager × Except PosErr Unit :=
  let fetched : PositionManager × Except PosErr Position :=
    (m.positions.lookup symbol).elim
      (exceptCase (Position.create_flat_position symbol now)
        (fun e => (m, Except.error e))
        (fun p => ({ positions := updateAssoc m.positions symbol p }, Except.ok p)))
      (fun p => (m, Except.ok p))
  exceptCase fetched.2 (fun e => (fetched.1, Except.error e)) (fun position =>
    let step : Position × Except PosErr Unit :=
      match side with
      | .flat =>
          let c := position.close_position price now
          exceptCase c.2 (fun e => (c.1, Except.error e)) (fun _ => (c.1, Except.ok ()))
      | .long =>
          if position.is_short then
            let c := position.reverse_position quantity price now
            exceptCase c.2 (fun e => (c.1, Except.error e)) (fun _ => (c.1, Except.ok ()))
          else
            let p1 := { position with side := PositionSide.long }
            if p1.is_flat then
              ({ p1 with quantity := quantity, avg_price := price }, Except.ok ())
            else
              p1.add_position (quantity - p1.quantity) price now
      | .short =>
          if position.is_long then
            let c := position.reverse_position quantity price now
            exceptCase c.2 (fun e => (c.1, Except.error e)) (fun _ => (c.1, Except.ok ()))
          else
            let p1 := { position with side := PositionSide.short }
            if p1.is_flat then
              ({ p1 with quantity := quantity, avg_price := price }, Except.ok ())
            else
              p1.add_position (quantity - p1.quantity) price now
    exceptCase step.2
      (fun e => ({ positions := updateAssoc fetched.1.positions symbol step.1 },
                 Except.error e))
      (fun _ =>
        let p3 := step.1.update_price price now
        ({ positions := updateAssoc fetched.1.positions symbol p3 }, Except.ok ())))

/-- `TradeType` enum from src/engine/trade.py. -/
inductive TradeType where
  | buy
  | sell
  | close_long
  | close_short
deriving DecidableEq

/-- `TradeStatus` enum from src/engine/trade.py. -/
inductive TradeStatus where
  | pending
  | filled
  | cancelled
  | rejected
deriving DecidableEq

/-- The distinct ValueError raise sites of `Trade.__post_init__`. -/
inductive TradeErr where
  | nonposQuantity -- "交易数量必须大于0"
  | nonposPrice    -- "交易价格必须大于0"
  | negCommission  -- "手续费不能为负数"
deriving DecidableEq

/-- The `Trade` dataclass fields (src/engine/trade.py).  The free-form
metadata dict is embedded as a string-keyed association list (the source
only ever stores the reject reason in it). -/
structure Trade where
  trade_id : String
  symbol : String
  trade_type : TradeType
  quantity : ℚ
  price : ℚ
  timestamp : ℕ
  status : TradeStatus := TradeStatus.pending
  commission : ℚ := 0
  slippage : ℚ := 0
  realized_pnl : ℚ := 0
  order_price : Option ℚ := none
  fill_time : Option ℕ := none
  metadata : List (String × String) := []
deriving DecidableEq

/-- `Trade.__post_init__` validation, run on every construction of the
dataclass: quantity and price must be positive, commission nonnegative. -/
def mkTrade (trade_id symbol : String) (trade_type : TradeType)
    (quantity price : ℚ) (timestamp : ℕ) (status : TradeStatus)
    (commission slippage realized_pnl : ℚ) (order_price : Option ℚ)
    (fill_time : Option ℕ) (metadata : List (String × String)) :
    Except TradeErr Trade :=
  if quantity ≤ 0 then .error .nonposQuantity
  else if price ≤ 0 then .error .nonposPrice
  else if commission < 0 then .error .negCommission
  else .ok {
    trade_id := trade_id
    symbol := symbol
    trade_type := trade_type
    quantity := quantity
    price := price
    timestamp := timestamp
    status := status
    commission := commission
    slippage := slippage
    realized_pnl := realized_pnl
    order_price := order_price
    fill_time := fill_time
    metadata := metadata }

/-- `Trade.trade_value = quantity * price`. -/
def Trade.trade_value (t : Trade) : ℚ :=
  t.quantity * t.price

/-- `Trade.total_cost = trade_value + commission + quantity * |slippage|`. -/
def Trade.total_cost (t : Trade) : ℚ :=
  let slippage_cost := t.quantity * |t.slippage|
  t.trade_value + t.commission + slippage_cost

/-- `Trade.fill`: optionally overrides the price, sets the fill time (the
argument when supplied, the current time otherwise) and unconditionally
sets the status to FILLED.  The source has no terminality guard. -/
def Trade.fill (t : Trade) (fill_price : Option ℚ) (fill_time : Option ℕ)
    (now : ℕ) : Trade :=
  let t1 := match fill_price with | none => t | some fp => { t with price := fp }
  { t1 with fill_time := some (fill_time.getD now), status := TradeStatus.filled }

/-- `Trade.cancel`: unconditionally sets the status to CANCELLED. -/
def Trade.cancel (t : Trade) : Trade :=
  { t with status := TradeStatus.cancelled }

/-- `Trade.reject`: unconditionally sets the status to REJECTED, recording
a nonempty reason in the metadata. -/
def Trade.reject (t : Trade) (reason : String) : Trade :=
  let t1 := { t with status := TradeStatus.rejected }
  if reason = "" then t1
  else { t1 with metadata := ("reject_reason", reason) :: t1.metadata }

/-- `SignalType` enum from src/strategy/signals.py. -/
inductive SignalType where
  | buy
  | sell
  | hold
  | close
  | close_long
  | close_short
deriving DecidableEq

/-- The distinct ValueError raise sites of `Signal.__post_init__`. -/
inductive SignalErr where
  | zeroQuantity      -- "交易数量不能为0"
  | limitWithoutPrice -- "限价单必须指定限价"
  | nonposStopPrice   -- "止损价必须大于0"
  | nonposTakeProfit  -- "止盈价必须大于0"
deriving DecidableEq

/-- The `Signal` dataclass fields (src/strategy/signals.py). -/
structure Signal where
  symbol : String
  signal_type : SignalType
  quantity : ℚ
  timestamp : ℕ
  price_type : String := "market"
  limit_price : Option ℚ := none
  stop_price : Option ℚ := none
  take_profit : Option ℚ := none
  priority : ℤ := 0
deriving DecidableEq

/-- `Signal.__post_init__` validation, run on every construction of the
dataclass: quantity nonzero (checked first), a limit order must carry a
limit price, optional stop/target levels must be positive. -/
def mkSignal (symbol : String) (signal_type : SignalType) (quantity : ℚ)
    (timestamp : ℕ) (price_type : String) (limit_price stop_price take_profit : Option ℚ)
    (priority : ℤ) : Except SignalErr Signal :=
  if quantity = 0 then .error .zeroQuantity
  else if price_type = "limit" && limit_price == none then .error .limitWithoutPrice
  else if (match stop_price with | some s => decide (s ≤ 0) | none => false) then
    .error .nonposStopPrice
  else if (match take_profit with | some s => decide (s ≤ 0) | none => false) then
    .error .nonposTakeProfit
  else .ok {
    symbol := symbol
    signal_type := signal_type
    quantity := quantity
    timestamp := timestamp
    price_type := price_type
    limit_price := limit_price
    stop_price := stop_price
    take_profit := take_profit
    priority := priority }

/-- `Signal.close_signal` classmethod: `quantity=quantity or 0`, so both a
missing quantity and a (falsy) zero quantity become 0; the remaining keyword
arguments are forwarded to the constructor. -/
def Signal.close_signal (symbol : String) (quantity : Option ℚ) (timestamp : ℕ)
    (price_type : String) (limit_price stop_price take_profit : Option ℚ)
    (priority : ℤ) : Except SignalErr Signal :=
  let q : ℚ := match quantity with | none => 0 | some x => if x = 0 then 0 else x
  mkSignal symbol SignalType.close q timestamp price_type limit_price stop_price
    take_profit priority

/-- `Signal.hold_signal` classmethod: always passes `quantity=0`; the
remaining keyword arguments are forwarded to the constructor. -/
def Signal.hold_signal (symbol : String) (timestamp : ℕ) (price_type : String)
    (limit_price stop_price take_profit : Option ℚ) (priority : ℤ) :
    Except SignalErr Signal :=
  mkSignal symbol SignalType.hold 0 timestamp price_type limit_price stop_price
    take_profit priority

/-! ### Concrete fixtures used by the claim theorems -/

/-- A LONG position of 10 units at average price 100 (reachable via
`create_long_position("IF2306", 10, 100)`). -/
def longPos10 : Position :=
  { symbol := "IF2306", side := PositionSide.long, quantity := 10, avg_price := 100,
    current_price := 100, timestamp := 0 }

/-- A flat position with a leftover positive cost basis, the state produced
by reducing a position to zero (e.g. `longPos10.reduce_position 10 100`
modulo PnL bookkeeping). -/
def flatPos100 : Position :=
  { symbol := "IF2306", side := PositionSide.flat, quantity := 0, avg_price := 100,
    current_price := 100, timestamp := 0 }

/-- A registry holding `longPos10` under its symbol. -/
def mgr10 : PositionManager := { positions := [("IF2306", longPos10)] }

/-- A PENDING buy trade of 1 unit at price 100. -/
def pendingTrade : Trade :=
  { trade_id := "t1", symbol := "IF2306", trade_type := TradeType.buy, quantity := 1,
    price := 100, timestamp := 0 }

/-- The trade produced by `mkTrade "t9" "IF2306" buy 2 100 0 pending 3 (-1) 0 none none []`. -/
def sampleTrade : Trade :=
  { trade_id := "t9", symbol := "IF2306", trade_type := TradeType.buy, quantity := 2,
    price := 100, timestamp := 0, commission := 3, slippage := -1 }

/-- Fold a list of `(quantity, price)` fills through `add_position`
(timestamps are irrelevant to the accounting and fixed at 0). -/
def applyAdds (p : Position) (l : List (ℚ × ℚ)) : Position :=
  match l with
  | [] => p
  | (q, price) :: rest => applyAdds (p.add_position q price 0).1 rest

/-- Total quantity of a list of fills. -/
def sumQty (l : List (ℚ × ℚ)) : ℚ := (l.map Prod.fst).sum

/-- Total cost (Σ qty·price) of a list of fills. -/
def sumCost (l : List (ℚ × ℚ)) : ℚ := (l.map (fun x => x.1 * x.2)).sum

/-- A LONG-side position with quantity 0 (constructible, e.g. via
`create_long_position("IF2306", 0, 100)`, whose validation only rejects
negative quantities); the state the registry reaches by assigning `side`
before its first add. -/
def longSidedZero : Position :=
  { symbol := "IF2306", side := PositionSide.long, quantity := 0, avg_price := 100,
    current_price := 100, timestamp := 0 }

/-- The spec's Position invariant: `quantity == 0 ⟺ side == FLAT`. -/
abbrev posInvariant (p : Position) : Prop :=
  p.quantity = 0 ↔ p.side = PositionSide.flat


@[simp] theorem exceptCase_error {ε ρ β : Type} (e : ε) (herr : ε → β) (hok : ρ → β) :
    exceptCase (Except.error e) herr hok = herr e := rfl

@[simp] theorem exceptCase_ok {ε ρ β : Type} (r : ρ) (herr : ε → β) (hok : ρ → β) :
    exceptCase (Except.ok r) herr hok = hok r := rfl

/-! ### Characterization lemmas for the position operations -/

/-- A successful `reduce_position` call, spelled out. -/
theorem reduce_position_ok (p : Position) (q price : ℚ) (now : ℕ)
    (hq0 : 0 < q) (hqle : q ≤ p.quantity) :
    p.reduce_position q price now =
      ({ p with
          realized_pnl := p.realized_pnl +
            (if p.is_long then q * (price - p.avg_price) else q * (-(price - p.avg_price))),
          quantity := p.quantity - q,
          side := if p.quantity - q = 0 then PositionSide.flat else p.side,
          timestamp := now },
       Except.ok
         (if p.is_long then q * (price - p.avg_price) else q * (-(price - p.avg_price)))) := by
  unfold Position.reduce_position
  rw [if_neg (not_le.mpr hq0), if_neg (not_lt.mpr hqle)]

/-- `add_position` on a flat state, spelled out. -/
theorem add_position_flat (p : Position) (q price : ℚ) (now : ℕ)
    (hq0 : 0 < q) (hflat : p.is_flat = true) :
    p.add_position q price now =
      ({ p with quantity := q, avg_price := price, timestamp := now }, Except.ok ()) := by
  unfold Position.add_position
  rw [if_neg (not_le.mpr hq0), if_pos hflat]

/-- `add_position` on a non-flat state, spelled out. -/
theorem add_position_nonflat (p : Position) (q price : ℚ) (now : ℕ)
    (hq0 : 0 < q) (hflat : ¬ p.is_flat = true) :
    p.add_position q price now =
      ({ p with quantity := p.quantity + q,
                avg_price := (p.quantity * p.avg_price + q * price) / (p.quantity + q),
                timestamp := now }, Except.ok ()) := by
  unfold Position.add_position Position.cost_value
  rw [if_neg (not_le.mpr hq0), if_neg hflat]

/-! ### C7 -/

/-- C7: for every position (with the validated nonnegative quantity) and
every q strictly greater than the held quantity, `reduce_position` fails
with the insufficient-position error and returns the position completely
unmodified — every field keeps its pre-call value. -/
theorem c7_reduce_insufficient_unmodified (p : Position) (q price : ℚ) (now : ℕ)
    (hq : 0 ≤ p.quantity) (h : p.quantity < q) :
    p.reduce_position q price now = (p, Except.error PosErr.insufficientPosition) := by
  unfold Position.reduce_position
  rw [if_neg (not_le.mpr (lt_of_le_of_lt hq h)), if_pos h]

/-- Witness for C7 at `longPos10` with q = 11. -/
theorem c7_witness :
    (0 ≤ longPos10.quantity ∧ longPos10.quantity < 11) ∧
    longPos10.reduce_position 11 105 1 = (longPos10, Except.error PosErr.insufficientPosition) :=
  ⟨⟨by decide, by decide⟩,
   c7_reduce_insufficient_unmodified longPos10 11 105 1 (by decide) (by decide)⟩

/-! ### C9 -/

/-- C9: every validly constructed Trade satisfies
`trade_value = quantity × price`,
`total_cost = trade_value + commission + quantity × |slippage|`, and
`total_cost ≥ trade_value`, because construction enforces
`commission ≥ 0` and `quantity > 0`. -/
theorem c9_total_cost_ge_trade_value (trade_id symbol : String) (trade_type : TradeType)
    (quantity price : ℚ) (timestamp : ℕ) (status : TradeStatus)
    (commission slippage realized_pnl : ℚ) (order_price : Option ℚ) (fill_time : Option ℕ)
    (metadata : List (String × String)) (t : Trade)
    (h : mkTrade trade_id symbol trade_type quantity price timestamp status commission
      slippage realized_pnl order_price fill_time metadata = Except.ok t) :
    t.trade_value = t.quantity * t.price ∧
    t.total_cost = t.trade_value + t.commission + t.quantity * |t.slippage| ∧
    t.trade_value ≤ t.total_cost := by
  unfold mkTrade at h
  split_ifs at h with h1 h2 h3
  injection h with h
  subst h
  refine ⟨rfl, rfl, ?_⟩
  have hq : 0 < quantity := lt_of_not_le h1
  have hc : 0 ≤ commission := le_of_not_lt h3
  have hs : 0 ≤ quantity * |slippage| := mul_nonneg hq.le (abs_nonneg _)
  simp only [Trade.total_cost]
  linarith

/-- Witness for C9 at a concrete trade with commission 3 and slippage −1. -/
theorem c9_witness :
    mkTrade "t9" "IF2306" TradeType.buy 2 100 0 TradeStatus.pending 3 (-1) 0 none none []
      = Except.ok sampleTrade ∧
    sampleTrade.trade_value ≤ sampleTrade.total_cost :=
  ⟨by decide,
   (c9_total_cost_ge_trade_value "t9" "IF2306" TradeType.buy 2 100 0 TradeStatus.pending
     3 (-1) 0 none none [] sampleTrade (by decide)).2.2⟩

/-! ### C10 -/

/-- C10: constructing a Signal with quantity 0 always fails validation with
the zero-quantity error, for any other field values; hence `hold_signal`
(which always passes quantity 0) fails on every input, and `close_signal`
fails whenever its quantity argument is missing or 0 (both become 0 via
`quantity or 0`). -/
theorem c10_zero_quantity_signals (symbol : String) (signal_type : SignalType)
    (timestamp : ℕ) (price_type : String) (limit_price stop_price take_profit : Option ℚ)
    (priority : ℤ) (q : Option ℚ) (hq : q = none ∨ q = some 0) :
    mkSignal symbol signal_type 0 timestamp price_type limit_price stop_price take_profit
      priority = Except.error SignalErr.zeroQuantity ∧
    Signal.hold_signal symbol timestamp price_type limit_price stop_price take_profit
      priority = Except.error SignalErr.zeroQuantity ∧
    Signal.close_signal symbol q timestamp price_type limit_price stop_price take_profit
      priority = Except.error SignalErr.zeroQuantity := by
  refine ⟨?_, ?_, ?_⟩
  · simp [mkSignal]
  · simp [Signal.hold_signal, mkSignal]
  · rcases hq with h | h <;> subst h <;> simp [Signal.close_signal, mkSignal]

/-- Witness for C10 at concrete inputs, with `close_signal` given an
explicit zero quantity. -/
theorem c10_witness :
    (some (0 : ℚ) = none ∨ some (0 : ℚ) = some 0) ∧
    (mkSignal "IF2306" SignalType.hold 0 0 "market" none none none 0
       = Except.error SignalErr.zeroQuantity ∧
     Signal.hold_signal "IF2306" 0 "market" none none none 0
       = Except.error SignalErr.zeroQuantity ∧
     Signal.close_signal "IF2306" (some 0) 0 "market" none none none 0
       = Except.error SignalErr.zeroQuantity) :=
  ⟨Or.inr rfl,
   c10_zero_quantity_signals "IF2306" SignalType.hold 0 "market" none none none 0
     (some 0) (Or.inr rfl)⟩

/-! ### C2 -/

/-- C2 counterexample: a Trade in terminal status FILLED transitions again —
the source has no terminality guard, so after `fill()` a `cancel()` succeeds
and moves the status to CANCELLED, and a second `fill()` succeeds as well. -/
theorem c2_counterexample :
    (pendingTrade.fill none none 1).status = TradeStatus.filled ∧
    ((pendingTrade.fill none none 1).cancel).status = TradeStatus.cancelled ∧
    ((pendingTrade.fill none none 1).cancel).status ≠ TradeStatus.filled ∧
    ((pendingTrade.fill none none 1).fill none none 2).status = TradeStatus.filled := by
  decide

/-- C2 amended: the lifecycle methods are unguarded and never raise — on any
Trade, in particular one already terminal after a first `fill()`, a second
`fill()` succeeds and sets the status to FILLED again, while `cancel()` and
`reject()` succeed and move the trade to CANCELLED / REJECTED. -/
theorem c2_amended (t : Trade) (p1 p2 : Option ℚ) (f1 f2 : Option ℕ) (n1 n2 : ℕ)
    (reason : String) :
    ((t.fill p1 f1 n1).fill p2 f2 n2).status = TradeStatus.filled ∧
    ((t.fill p1 f1 n1).cancel).status = TradeStatus.cancelled ∧
    ((t.fill p1 f1 n1).reject reason).status = TradeStatus.rejected := by
  refine ⟨?_, ?_, ?_⟩
  · cases p2 <;> rfl
  · rfl
  · unfold Trade.reject
    split <;> rfl

/-! ### C1 -/

/-- C1: evaluating `reverse_position` at the claim's own example — a LONG
position of 10 at avg_price 100, reversed to 8 at price 110.  The realized
PnL is 100 and the new quantity and avg_price are 8 and 110 as claimed, but
the resulting side is LONG, not SHORT: `close_position` has already forced
`side = FLAT`, so the subsequent flip test `side == LONG` reads FLAT and
lands on LONG regardless of the original direction, contradicting the
method's own documented intent of opening the opposite side. -/
theorem c1_reverse_long_stays_long :
    (longPos10.reverse_position 8 110 1).2 = Except.ok 100 ∧
    (longPos10.reverse_position 8 110 1).1.quantity = 8 ∧
    (longPos10.reverse_position 8 110 1).1.avg_price = 110 ∧
    (longPos10.reverse_position 8 110 1).1.side = PositionSide.long ∧
    (longPos10.reverse_position 8 110 1).1.side ≠ PositionSide.short := by
  simp [longPos10, Position.reverse_position, Position.close_position,
    Position.reduce_position, Position.is_flat, Position.is_long]
  try norm_num
  try decide

/-! ### C3 -/

/-- C3: `get_position` on a symbol not yet in the registry never succeeds —
`create_flat_position` constructs with `avg_price = 0`, which the
dataclass's own `__post_init__` validation rejects ("平均价格必须大于0"),
so the call raises instead of returning a fresh FLAT position, and the
registry is left without the symbol. -/
theorem c3_get_position_always_raises :
    Position.create_flat_position "IF2306" 0 = Except.error PosErr.nonposAvgPrice ∧
    (PositionManager.get_position { positions := [] } "IF2306" 0).2
      = Except.error PosErr.nonposAvgPrice ∧
    (PositionManager.get_position { positions := [] } "IF2306" 0).1.positions = [] := by
  refine ⟨by decide, ?_, ?_⟩ <;>
    simp [PositionManager.get_position, Position.create_flat_position, mkPosition,
      List.lookup]

/-! ### C4 -/

/-- C4: evaluating the registry's update at a LONG position of 10 at
avg_price 100 with requested side LONG and smaller quantity 6 at price 105.
The source computes `add_position(6 - 10, 105)` — a negative delta that
violates add's positive-quantity precondition — so the call raises instead
of reducing, and the stored position keeps quantity 10 and avg_price 100. -/
theorem c4_update_long_smaller_raises :
    (mgr10.update_position "IF2306" 6 PositionSide.long 105 1).2
      = Except.error PosErr.addNonposQuantity ∧
    ((mgr10.update_position "IF2306" 6 PositionSide.long 105 1).1.positions.lookup
      "IF2306").map Position.quantity = some 10 ∧
    ((mgr10.update_position "IF2306" 6 PositionSide.long 105 1).1.positions.lookup
      "IF2306").map Position.avg_price = some 100 := by
  refine ⟨?_, ?_, ?_⟩ <;>
    (simp [mgr10, longPos10, PositionManager.update_position, Position.is_short,
       Position.is_flat, Position.add_position, Position.cost_value, List.lookup,
       updateAssoc]
     try norm_num
     try simp [updateAssoc, List.lookup]
     try decide)

/-! ### C5 -/

/-- C5 counterexample: on a LONG position of 10 at avg_price 100,
`reduce(4, 110)` followed by `add(4, 110)` restores the quantity but moves
the avg_price to (6·100 + 4·110)/10 = 104 ≠ 100 — the weighted average
re-blends the add price into the cost basis, so avg_price is not restored
for a price different from the pre-reduce avg_price. -/
theorem c5_counterexample :
    ((longPos10.reduce_position 4 110 1).1.add_position 4 110 2).1.quantity = 10 ∧
    ((longPos10.reduce_position 4 110 1).1.add_position 4 110 2).1.avg_price = 104 ∧
    ((longPos10.reduce_position 4 110 1).1.add_position 4 110 2).1.avg_price ≠ 100 := by
  simp [longPos10, Position.reduce_position, Position.add_position, Position.is_flat,
    Position.is_long, Position.cost_value]
  try norm_num
  try decide

/-- C5 amended: for every non-flat position, 0 < q ≤ quantity and price
p > 0, `reduce(q, p)` followed by `add(q, p)` restores the pre-reduce
quantity exactly; the pre-reduce avg_price is restored exactly provided p
equals the pre-reduce avg_price (for other prices the add re-blends p into
the weighted-average cost basis, as the counterexample shows). -/
theorem c5_reduce_add_roundtrip (p : Position) (q price : ℚ) (t1 t2 : ℕ)
    (hside : p.side ≠ PositionSide.flat) (hqty : p.quantity ≠ 0)
    (hq0 : 0 < q) (hqle : q ≤ p.quantity) (hprice : 0 < price) :
    ((p.reduce_position q price t1).1.add_position q price t2).1.quantity = p.quantity ∧
    (price = p.avg_price →
      ((p.reduce_position q price t1).1.add_position q price t2).1.avg_price
        = p.avg_price) := by
  have hQ : 0 < p.quantity := lt_of_lt_of_le hq0 hqle
  by_cases hzero : p.quantity - q = 0
  · have hqq : p.quantity = q := by linarith
    have h1 : (p.reduce_position q price t1).1 =
        { p with
            realized_pnl := p.realized_pnl +
              (if p.is_long then q * (price - p.avg_price)
               else q * (-(price - p.avg_price))),
            quantity := p.quantity - q, side := PositionSide.flat, timestamp := t1 } := by
      rw [reduce_position_ok p q price t1 hq0 hqle]
      simp [hzero]
    have hflat : ((p.reduce_position q price t1).1).is_flat = true := by
      rw [h1]; simp [Position.is_flat]
    rw [add_position_flat _ q price t2 hq0 hflat, h1]
    exact ⟨hqq.symm, fun hpe => hpe⟩
  · have h1 : (p.reduce_position q price t1).1 =
        { p with
            realized_pnl := p.realized_pnl +
              (if p.is_long then q * (price - p.avg_price)
               else q * (-(price - p.avg_price))),
            quantity := p.quantity - q, side := p.side, timestamp := t1 } := by
      rw [reduce_position_ok p q price t1 hq0 hqle]
      simp [hzero]
    have hnot : ¬ ((p.reduce_position q price t1).1).is_flat = true := by
      rw [h1]
      simp [Position.is_flat, hzero]
      exact hside
    rw [add_position_nonflat _ q price t2 hq0 hnot, h1]
    constructor
    · show p.quantity - q + q = p.quantity
      ring
    · intro hpe
      show ((p.quantity - q) * p.avg_price + q * price) / (p.quantity - q + q)
          = p.avg_price
      rw [hpe, div_eq_iff (by rw [show p.quantity - q + q = p.quantity by ring]; exact hQ.ne')]
      ring

/-- Witness for C5 at `longPos10` with q = 4 and p = 100 (= avg_price). -/
theorem c5_witness :
    (longPos10.side ≠ PositionSide.flat ∧ longPos10.quantity ≠ 0 ∧
     (0 : ℚ) < 4 ∧ (4 : ℚ) ≤ longPos10.quantity ∧ (0 : ℚ) < 100 ∧
     (100 : ℚ) = longPos10.avg_price) ∧
    ((longPos10.reduce_position 4 100 1).1.add_position 4 100 2).1.quantity
      = longPos10.quantity ∧
    ((longPos10.reduce_position 4 100 1).1.add_position 4 100 2).1.avg_price
      = longPos10.avg_price :=
  ⟨⟨by decide, by decide, by decide, by decide, by decide, by decide⟩,
   (c5_reduce_add_roundtrip longPos10 4 100 1 2 (by decide) (by decide) (by decide)
      (by decide) (by decide)).1,
   (c5_reduce_add_roundtrip longPos10 4 100 1 2 (by decide) (by decide) (by decide)
      (by decide) (by decide)).2 (by decide)⟩

/-! ### C6 -/

/-- Folding adds through a position whose side is not FLAT and whose
quantity is positive accumulates the weighted-average cost basis. -/
theorem applyAdds_nonflat (l : List (ℚ × ℚ)) (p : Position)
    (hside : p.side ≠ PositionSide.flat) (hq : 0 < p.quantity)
    (hl : ∀ x ∈ l, 0 < x.1) :
    (applyAdds p l).side = p.side ∧
    (applyAdds p l).quantity = p.quantity + sumQty l ∧
    (applyAdds p l).avg_price
      = (p.quantity * p.avg_price + sumCost l) / (p.quantity + sumQty l) := by
  induction l generalizing p with
  | nil =>
      refine ⟨rfl, by simp [applyAdds, sumQty], ?_⟩
      simp only [applyAdds, sumQty, sumCost, List.map_nil, List.sum_nil, add_zero]
      field_simp
  | cons x rest ih =>
      obtain ⟨q, price⟩ := x
      have hq0 : 0 < q := hl (q, price) (List.mem_cons_self _ _)
      have hnot : ¬ p.is_flat = true := by
        simp [Position.is_flat, hq.ne']
        exact hside
      have hstep : applyAdds p ((q, price) :: rest) =
          applyAdds ({ p with
            quantity := p.quantity + q
            avg_price := (p.quantity * p.avg_price + q * price) / (p.quantity + q)
            timestamp := 0 }) rest := by
        simp only [applyAdds]
        rw [add_position_nonflat p q price 0 hq0 hnot]
      have hne : p.quantity + q ≠ 0 := by positivity
      obtain ⟨hs, hqq, hav⟩ := ih
        { p with
          quantity := p.quantity + q
          avg_price := (p.quantity * p.avg_price + q * price) / (p.quantity + q)
          timestamp := 0 }
        hside (by simpa using add_pos hq hq0)
        (fun y hy => hl y (List.mem_cons_of_mem _ hy))
      dsimp only at hs hqq hav
      rw [hstep]
      refine ⟨hs, ?_, ?_⟩
      · rw [hqq]
        simp only [sumQty, List.map_cons, List.sum_cons]
        ring
      · rw [hav]
        simp only [sumQty, sumCost, List.map_cons, List.sum_cons]
        rw [mul_comm (p.quantity + q), div_mul_cancel₀ _ hne]
        ring

/-- C6 counterexample: from a genuinely FLAT-side position (quantity 0,
produced by a reduce-to-zero), `add(5, 4000)` then `add(5, 4100)` yields
quantity 5 and avg_price 4100 — each add re-enters the opening branch
because `add_position` never assigns `side`, so the final state is the last
add alone, not the claimed quantity 10 with weighted avg_price 4050. -/
theorem c6_counterexample :
    (applyAdds flatPos100 [(5, 4000), (5, 4100)]).quantity = 5 ∧
    (applyAdds flatPos100 [(5, 4000), (5, 4100)]).avg_price = 4100 ∧
    (applyAdds flatPos100 [(5, 4000), (5, 4100)]).side = PositionSide.flat ∧
    (applyAdds flatPos100 [(5, 4000), (5, 4100)]).quantity ≠ 10 ∧
    (applyAdds flatPos100 [(5, 4000), (5, 4100)]).avg_price ≠ 4050 := by
  decide

/-- C6 amended: the weighted-average law holds for a quantity-0 starting
position whose side is LONG or SHORT (the state the registry produces by
setting `side` before adding): for any nonempty sequence of adds with all
quantities and prices positive, the final quantity is Σ qty_i and the final
avg_price is Σ(qty_i·price_i) / Σ qty_i.  Started instead from a FLAT-side
position, every add re-takes the opening branch (since add never updates
`side`) and the final state equals the last add alone. -/
theorem c6_weighted_average (p : Position) (q price : ℚ) (rest : List (ℚ × ℚ))
    (hside : p.side ≠ PositionSide.flat) (hq : p.quantity = 0)
    (hl : ∀ x ∈ (q, price) :: rest, 0 < x.1)
    (hp : ∀ x ∈ (q, price) :: rest, 0 < x.2) :
    (applyAdds p ((q, price) :: rest)).quantity = sumQty ((q, price) :: rest) ∧
    (applyAdds p ((q, price) :: rest)).avg_price
      = sumCost ((q, price) :: rest) / sumQty ((q, price) :: rest) := by
  have hq0 : 0 < q := hl (q, price) (List.mem_cons_self _ _)
  have hflat : p.is_flat = true := by simp [Position.is_flat, hq]
  have h1 : applyAdds p ((q, price) :: rest) =
      applyAdds ({ p with
        quantity := q
        avg_price := price
        timestamp := 0 }) rest := by
    simp only [applyAdds]
    rw [add_position_flat p q price 0 hq0 hflat]
  rw [h1]
  obtain ⟨hs, hqq, hav⟩ := applyAdds_nonflat rest
    { p with
      quantity := q
      avg_price := price
      timestamp := 0 }
    hside hq0 (fun y hy => hl y (List.mem_cons_of_mem _ hy))
  dsimp only at hs hqq hav
  refine ⟨?_, ?_⟩
  · rw [hqq]
    simp [sumQty]
  · rw [hav]
    simp [sumQty, sumCost]

/-- Witness for C6 at a LONG-side quantity-0 start with adds
`(5, 4000), (5, 4100)`: quantity 10 and avg_price 4050. -/
theorem c6_witness :
    (longSidedZero.side ≠ PositionSide.flat ∧
     longSidedZero.quantity = 0 ∧
     (∀ x ∈ [((5 : ℚ), (4000 : ℚ)), (5, 4100)], 0 < x.1) ∧
     (∀ x ∈ [((5 : ℚ), (4000 : ℚ)), (5, 4100)], 0 < x.2)) ∧
    (applyAdds longSidedZero [(5, 4000), (5, 4100)]).quantity
      = sumQty [(5, 4000), (5, 4100)] ∧
    (applyAdds longSidedZero [(5, 4000), (5, 4100)]).avg_price
      = sumCost [(5, 4000), (5, 4100)] / sumQty [(5, 4000), (5, 4100)] ∧
    (applyAdds longSidedZero [(5, 4000), (5, 4100)]).quantity = 10 ∧
    (applyAdds longSidedZero [(5, 4000), (5, 4100)]).avg_price = 4050 :=
  ⟨⟨by decide, by decide, by decide, by decide⟩,
   (c6_weighted_average longSidedZero 5 4000 [(5, 4100)]
      (by decide) (by decide) (by decide) (by decide)).1,
   (c6_weighted_average longSidedZero 5 4000 [(5, 4100)]
      (by decide) (by decide) (by decide) (by decide)).2,
   by
     simp [longSidedZero, applyAdds, Position.add_position, Position.is_flat,
       Position.cost_value]
     try norm_num
     try decide,
   by
     simp [longSidedZero, applyAdds, Position.add_position, Position.is_flat,
       Position.cost_value]
     try norm_num
     try decide⟩

/-! ### C8 -/

/-- A successful `reduce_position` preserves the invariant. -/
theorem reduce_preserves_invariant (p : Position) (q price : ℚ) (now : ℕ) (r : ℚ)
    (hq : 0 ≤ p.quantity) (hinv : posInvariant p)
    (hok : (p.reduce_position q price now).2 = Except.ok r) :
    posInvariant (p.reduce_position q price now).1 := by
  unfold Position.reduce_position at hok ⊢
  by_cases h1 : q ≤ 0
  · rw [if_pos h1] at hok
    simp at hok
  rw [if_neg h1] at hok ⊢
  by_cases h2 : p.quantity < q
  · rw [if_pos h2] at hok
    simp at hok
  rw [if_neg h2] at hok ⊢
  dsimp only
  unfold posInvariant
  by_cases hz : p.quantity - q = 0
  · simp [hz]
  · simp only [if_neg hz]
    constructor
    · intro h0
      exact absurd h0 hz
    · intro hps
      have h0 : p.quantity = 0 := hinv.mpr hps
      have hq0 : 0 < q := lt_of_not_le h1
      have hle : q ≤ p.quantity := le_of_not_lt h2
      exact absurd (le_trans hle (le_of_eq h0)) (not_le.mpr hq0)

/-- A successful `close_position` preserves the invariant. -/
theorem close_preserves_invariant (p : Position) (price : ℚ) (now : ℕ) (r : ℚ)
    (hq : 0 ≤ p.quantity) (hinv : posInvariant p)
    (hok : (p.close_position price now).2 = Except.ok r) :
    posInvariant (p.close_position price now).1 := by
  unfold Position.close_position at hok ⊢
  by_cases hf : p.is_flat = true
  · rw [if_pos hf]
    exact hinv
  · rw [if_neg hf] at hok ⊢
    exact reduce_preserves_invariant p p.quantity price now r hq hinv hok

/-- A successful `reverse_position` preserves the invariant. -/
theorem reverse_preserves_invariant (p : Position) (new_quantity price : ℚ) (now : ℕ)
    (r : ℚ) (hq : 0 ≤ p.quantity) (hinv : posInvariant p)
    (hok : (p.reverse_position new_quantity price now).2 = Except.ok r) :
    posInvariant (p.reverse_position new_quantity price now).1 := by
  unfold Position.reverse_position at hok ⊢
  dsimp only at hok ⊢
  cases hc : (p.close_position price now).2 with
  | error e =>
      rw [hc] at hok
      simp at hok
  | ok r0 =>
      rw [hc] at hok
      simp only [exceptCase_ok] at hok ⊢
      by_cases hnq : 0 < new_quantity
      · rw [if_pos hnq]
        dsimp only
        unfold posInvariant
        constructor
        · intro h0
          exact absurd h0.symm hnq.ne
        · intro hside
          exfalso
          revert hside
          split <;> simp
      · rw [if_neg hnq]
        exact close_preserves_invariant p price now r0 hq hinv hc

/-- A successful `add_position` on a position whose side is not FLAT
preserves the invariant. -/
theorem add_nonflat_preserves_invariant (p : Position) (q price : ℚ) (now : ℕ)
    (hq : 0 ≤ p.quantity) (hinv : posInvariant p) (hside : p.side ≠ PositionSide.flat)
    (hok : (p.add_position q price now).2 = Except.ok ()) :
    posInvariant (p.add_position q price now).1 := by
  have hqne : p.quantity ≠ 0 := fun h => hside (hinv.mp h)
  have hqpos : 0 < p.quantity := lt_of_le_of_ne hq (Ne.symm hqne)
  unfold Position.add_position at hok ⊢
  by_cases h1 : q ≤ 0
  · rw [if_pos h1] at hok
    simp at hok
  rw [if_neg h1] at hok ⊢
  have hnf : ¬ p.is_flat = true := by
    simp [Position.is_flat, hqne]
    exact hside
  rw [if_neg hnf]
  dsimp only
  unfold posInvariant
  have hpos : 0 < p.quantity + q := by
    have := lt_of_not_le h1
    linarith
  constructor
  · intro h0
    exact absurd h0.symm hpos.ne
  · intro hs
    exact absurd hs hside

/-- `update_price` (mark) preserves the invariant: it touches neither
`quantity` nor `side`. -/
theorem update_price_preserves_invariant (p : Position) (new_price : ℚ) (now : ℕ)
    (hinv : posInvariant p) :
    posInvariant (p.update_price new_price now) :=
  hinv

/-- C8 counterexample: `flatPos100` satisfies the invariant and has the
validated nonnegative quantity, yet a successful `add(5, 4000)` yields
`side = FLAT` with `quantity = 5 > 0` — the opening branch of add never
assigns `side`, so the invariant is broken by a successful add. -/
theorem c8_counterexample :
    posInvariant flatPos100 ∧
    0 ≤ flatPos100.quantity ∧
    (flatPos100.add_position 5 4000 1).2 = Except.ok () ∧
    (flatPos100.add_position 5 4000 1).1.side = PositionSide.flat ∧
    0 < (flatPos100.add_position 5 4000 1).1.quantity ∧
    ¬ posInvariant (flatPos100.add_position 5 4000 1).1 := by
  refine ⟨by decide, by decide, ?_, ?_, by decide, ?_⟩ <;>
    (simp [flatPos100, Position.add_position, Position.is_flat, posInvariant]
     try decide)

/-- C8 amended: for a position with the validated nonnegative quantity that
satisfies the invariant, the invariant still holds after every successful
`reduce`, `close`, `reverse` and `mark` (update_price), and after every
successful `add` applied to a position whose side is not FLAT; an `add` on
a FLAT-side position instead takes the opening branch without assigning
`side` and breaks the invariant, as the counterexample shows. -/
theorem c8_invariant_preservation (p : Position) (q price new_quantity new_price : ℚ)
    (now : ℕ) (hq : 0 ≤ p.quantity) (hinv : posInvariant p) :
    (p.side ≠ PositionSide.flat → (p.add_position q price now).2 = Except.ok () →
        posInvariant (p.add_position q price now).1) ∧
    (∀ r : ℚ, (p.reduce_position q price now).2 = Except.ok r →
        posInvariant (p.reduce_position q price now).1) ∧
    (∀ r : ℚ, (p.close_position price now).2 = Except.ok r →
        posInvariant (p.close_position price now).1) ∧
    (∀ r : ℚ, (p.reverse_position new_quantity price now).2 = Except.ok r →
        posInvariant (p.reverse_position new_quantity price now).1) ∧
    posInvariant (p.update_price new_price now) :=
  ⟨fun hs hok => add_nonflat_preserves_invariant p q price now hq hinv hs hok,
   fun r hok => reduce_preserves_invariant p q price now r hq hinv hok,
   fun r hok => close_preserves_invariant p price now r hq hinv hok,
   fun r hok => reverse_preserves_invariant p new_quantity price now r hq hinv hok,
   update_price_preserves_invariant p new_price now hinv⟩

/-- Witness for C8 at `longPos10` with q = 4, price = 110,
new_quantity = 8, new_price = 105. -/
theorem c8_witness :
    (0 ≤ longPos10.quantity ∧ posInvariant longPos10) ∧
    ((longPos10.side ≠ PositionSide.flat →
        (longPos10.add_position 4 110 1).2 = Except.ok () →
        posInvariant (longPos10.add_position 4 110 1).1) ∧
     (∀ r : ℚ, (longPos10.reduce_position 4 110 1).2 = Except.ok r →
        posInvariant (longPos10.reduce_position 4 110 1).1) ∧
     (∀ r : ℚ, (longPos10.close_position 110 1).2 = Except.ok r →
        posInvariant (longPos10.close_position 110 1).1) ∧
     (∀ r : ℚ, (longPos10.reverse_position 8 110 1).2 = Except.ok r →
        posInvariant (longPos10.reverse_position 8 110 1).1) ∧
     posInvariant (longPos10.update_price 105 1)) :=
  ⟨⟨by decide, by decide⟩,
   c8_invariant_preservation longPos10 4 110 8 105 1 (by decide) (by decide)⟩

end PyFback
